/-
Verification of the story-feed publishing pipeline.

Shallow embedding of the Python sources of the repository anjaleeDS/story-feed:
  - src/scripts/make_post.py     (namespace MakePost)
  - src/make_posts.py            (namespace MakePosts)
  - src/scripts/make_postold.py  (namespace MakePostOld)

Python strings are modelled as Lean String, bytes as tagged strings, XML
element trees as a recursive inductive, HTTP traffic as explicit outcome
values fed to the retry loops, and exceptions as Except.
-/
import Mathlib

set_option autoImplicit false

namespace StoryFeed

/-! ## Python string primitives -/

/-- Leading and trailing whitespace removal on a character list. -/
def stripChars (l : List Char) : List Char :=
  ((l.dropWhile Char.isWhitespace).reverse.dropWhile Char.isWhitespace).reverse

/-- Model of Python str.strip(): remove leading and trailing whitespace. -/
def pyStrip (s : String) : String := String.mk (stripChars s.data)

/-- Model of Python str.lower(): lowercase every character. -/
def pyLower (s : String) : String := String.mk (s.data.map Char.toLower)

/-- One pass of Python str.replace for a single-character pattern:
every occurrence of the character is replaced by the given string. -/
def pyReplaceChar (l : List Char) (c : Char) (r : List Char) : List Char :=
  l.flatMap (fun d => if d = c then r else [d])

/-- Model of Python `value or default` for an optional string value, where
`none` models both an absent key and JSON null (dict.get collapses them),
and an empty string is falsy. -/
def pyOrStr (v : Option String) (dflt : String) : String :=
  match v with
  | some s => if s = "" then dflt else s
  | none => dflt

/-! ## StoryRecord and the shape matcher try_parse_obj
    (src/scripts/make_post.py lines 101-111) -/

/-- The canonical triple produced by the response normalizer. -/
structure StoryRecord where
  title : String
  story_html : String
  image_prompt : String
deriving DecidableEq, Repr

/-- A JSON object with string or null field values, as passed to
try_parse_obj.  A `none` value models JSON null.  (Field values of other
JSON types make the source raise AttributeError at the .strip() call or
let non-string values through; the payloads this normalizer is specified
over carry string fields.) -/
def JDict := List (String × Option String)

/-- Python `k in obj.keys()`: key presence, distinguishing an absent key
from a key mapped to null. -/
def hasKey (d : JDict) (k : String) : Bool := d.any (fun p => p.1 == k)

/-- Python obj.get(k): `none` for an absent key and for a null value. -/
def pyGet (d : JDict) (k : String) : Option String :=
  match d.find? (fun p => p.1 == k) with
  | some p => p.2
  | none => none

/-- Python obj[k]: the stored value (possibly null) when the key is
present, a KeyError otherwise. -/
def pyIndex (d : JDict) (k : String) : Except String (Option String) :=
  match d.find? (fun p => p.1 == k) with
  | some p => Except.ok p.2
  | none => Except.error ("KeyError: " ++ k)

/-- src/scripts/make_post.py lines 101-111, try_parse_obj:
requires all three keys to be present, then
title = (obj.get("title") or "Automated Story").strip(),
story_html = obj.get("story_html") or "",
image_prompt = obj.get("image_prompt") or "",
and returns the triple only when story_html and image_prompt are truthy. -/
def try_parse_obj (d : JDict) : Option StoryRecord :=
  if hasKey d "title" && hasKey d "story_html" && hasKey d "image_prompt" then
    let title := pyStrip (pyOrStr (pyGet d "title") "Automated Story")
    let story_html := (pyGet d "story_html").getD ""
    let image_prompt := (pyGet d "image_prompt").getD ""
    if story_html ≠ "" ∧ image_prompt ≠ "" then
      some ⟨title, story_html, image_prompt⟩
    else none
  else none

/-! ## Slug sanitization (src/scripts/make_post.py lines 65-68) -/

/-- The character class [A-Za-z0-9 -] of the first re.sub pattern. -/
def slugChar (c : Char) : Bool :=
  decide (('A' ≤ c ∧ c ≤ 'Z') ∨ ('a' ≤ c ∧ c ≤ 'z') ∨ ('0' ≤ c ∧ c ≤ '9') ∨ c = ' ' ∨ c = '-')

/-- re.sub(r"\s+", "-", s): replace each maximal whitespace run by a single
hyphen.  At the point of this call only the space character can remain in
the string (every other whitespace character was removed by the first
substitution), so runs of spaces are collapsed.  The flag records whether
the previous character belonged to a space run. -/
def collapseSpacesGo : Bool → List Char → List Char
  | _, [] => []
  | inRun, c :: cs =>
    if c = ' ' then
      if inRun then collapseSpacesGo true cs
      else '-' :: collapseSpacesGo true cs
    else c :: collapseSpacesGo false cs

def collapseSpaces (l : List Char) : List Char := collapseSpacesGo false l

/-- src/scripts/make_post.py lines 65-68 without the final `or "story"`:
s = re.sub(r"[^A-Za-z0-9 -]", "", s).strip().lower();
s = re.sub(r"\s+", "-", s); s[:60]. -/
def slugCore (s : String) : String :=
  let s1 := pyLower (pyStrip (String.mk (s.data.filter slugChar)))
  let s2 := String.mk (collapseSpaces s1.data)
  String.mk (s2.data.take 60)

/-- src/scripts/make_post.py slugify: `return s[:60] or "story"`. -/
def slugify (s : String) : String :=
  if slugCore s = "" then "story" else slugCore s

namespace MakePosts

/-- src/make_posts.py lines 35-38.  Both patterns are raw strings with a
doubled backslash.  The first, r"[^a-zA-Z0-9\\- ]", contains an escaped
backslash (\x5c\x5c) followed by "- ", which the re module parses as the
character range from backslash (code 92) down to space (code 32); a
descending range is rejected, so re.sub raises
re.error("bad character range \x5c\x5c-  at position 11") on every call,
before any slug is produced.  (Even were the class accepted, the second
pattern r"\\s+" matches a literal backslash followed by letters s, not
whitespace, so spaces would never be collapsed to hyphens.) -/
def slugify (s : String) : Except String String :=
  let _ := s
  Except.error "bad character range \x5c\x5c-  at position 11"

/-- src/make_posts.py lines 103-110, the record construction of the
Responses path of get_story_and_prompt, applied to the matched object
(the wrapper-unwrapping of lines 88-101 only selects which dict this
is): title = obj.get("title"), story_html = obj.get("story_html"),
image_prompt = obj.get("image_prompt"); when story_html or image_prompt
is falsy a ValueError is raised (caught at line 112, so this path yields
no record and the chat fallback runs); otherwise the triple
(title or "Automated Story", story_html, image_prompt) is returned —
the title is not stripped, and an absent or null or empty title turns
into the default. -/
def normalizeResponses (obj : JDict) : Option StoryRecord :=
  match pyGet obj "story_html", pyGet obj "image_prompt" with
  | some sh, some ip =>
    if sh ≠ "" ∧ ip ≠ "" then
      some ⟨pyOrStr (pyGet obj "title") "Automated Story", sh, ip⟩
    else none
  | some _, none => none
  | none, _ => none

/-- src/make_posts.py lines 130-132, the chat-completions fallback of
get_story_and_prompt: return obj["title"], obj["story_html"],
obj["image_prompt"], evaluated left to right.  A missing key raises
KeyError (caught at line 133 and re-raised as RuntimeError, so no
record); present values are returned verbatim — no non-emptiness check
and no title default. -/
def chatFallbackTriple (obj : JDict) :
    Except String (Option String × Option String × Option String) :=
  match pyIndex obj "title" with
  | Except.error e => Except.error e
  | Except.ok t =>
    match pyIndex obj "story_html" with
    | Except.error e => Except.error e
    | Except.ok s =>
      match pyIndex obj "image_prompt" with
      | Except.error e => Except.error e
      | Except.ok p => Except.ok (t, s, p)

end MakePosts

/-! ## Image acquisition (src/scripts/make_post.py lines 235-324) -/

/-- Decoded JSON body of an Images API response: the first entry of the
"data" list may carry inline base64 data or a hosted URL. -/
structure HttpResponse where
  status : Nat
  b64_json : Option String
  url : Option String
deriving DecidableEq, Repr

/-- Outcome of the nested GET of a hosted image URL
(src/scripts/make_post.py lines 301-309): a 2xx response with a
Content-Type header and a body, or an HTTPError from raise_for_status,
or a timeout.  The two failure cases are caught by the enclosing except
clauses of the retry loop. -/
inductive UrlFetch where
  | success (contentType : String) (content : String)
  | httpError
  | timeout
deriving DecidableEq, Repr

/-- Outcome of one POST to the images endpoint: a response (paired with
the outcome the nested URL fetch would have, consulted only when the
response carries a url and no b64_json), a requests timeout, or another
requests.exceptions.RequestException. -/
inductive Attempt where
  | response (r : HttpResponse) (fetch : UrlFetch)
  | timeout
  | requestError
deriving DecidableEq, Repr

/-- Binary image data, tagged with its provenance:
base64.b64decode of inline data, the body of a fetched URL, or the
UTF-8 encoding of a synthesized SVG document. -/
inductive ImgBytes where
  | b64decoded (b64 : String)
  | fetched (content : String)
  | utf8 (svg : String)
deriving DecidableEq, Repr

/-- The XML escaping inside make_svg (line 246): replace "&" by "&amp;",
then "<" by "&lt;", then ">" by "&gt;", in that order. -/
def escapeXml (s : String) : String :=
  String.mk (pyReplaceChar (pyReplaceChar (pyReplaceChar s.data
    '&' "&amp;".data) '<' "&lt;".data) '>' "&gt;".data)

/-- Line 246: safe = (text or "illustration").strip().replace(...). -/
def svgSafe (text : String) : String :=
  escapeXml (pyStrip (if text = "" then "illustration" else text))

/-- Line 247: snippet = (safe[:180] + "‚Ä¶") if len(safe) > 180 else safe.
The three-character suffix is the literal that appears in the source file
(a mojibake ellipsis). -/
def svgSnippet (text : String) : String :=
  let safe := svgSafe text
  if safe.length > 180 then String.mk (safe.data.take 180) ++ "‚Ä¶" else safe

/-- The SVG poster template before the interpolated snippet
(lines 248-264 of src/scripts/make_post.py). -/
def svgTemplateHead : String :=
  "<?xml version=\"1.0\" encoding=\"UTF-8\"?>\n" ++
  "<svg xmlns=\"http://www.w3.org/2000/svg\" width=\"1280\" height=\"720\">\n" ++
  "  <defs>\n" ++
  "    <linearGradient id=\"g\" x1=\"0\" y1=\"0\" x2=\"1\" y2=\"1\">\n" ++
  "      <stop offset=\"0%\" stop-color=\"#0f172a\"/>\n" ++
  "      <stop offset=\"100%\" stop-color=\"#1e293b\"/>\n" ++
  "    </linearGradient>\n" ++
  "  </defs>\n" ++
  "  <rect width=\"100%\" height=\"100%\" fill=\"url(#g)\"/>\n" ++
  "  <g transform=\"translate(56,80)\">\n" ++
  "    <text x=\"0\" y=\"0\" font-family=\"Inter, system-ui, -apple-system, Segoe UI, Roboto, Arial\" font-size=\"42\" font-weight=\"700\" fill=\"#e5e7eb\">\n" ++
  "      Auto Illustration\n" ++
  "    </text>\n" ++
  "    <foreignObject x=\"0\" y=\"28\" width=\"1168\" height=\"600\">\n" ++
  "      <div xmlns=\"http://www.w3.org/1999/xhtml\"\n" ++
  "           style=\"font-family: Inter, system-ui, -apple-system, Segoe UI, Roboto, Arial; font-size: 24px; line-height: 1.45; color:#cbd5e1;\">\n" ++
  "        "

/-- The SVG poster template after the interpolated snippet
(lines 264-268 of src/scripts/make_post.py). -/
def svgTemplateTail : String :=
  "\n      </div>\n    </foreignObject>\n  </g>\n</svg>"

/-- The full synthesized SVG document for a prompt. -/
def svgDocument (text : String) : String :=
  svgTemplateHead ++ svgSnippet text ++ svgTemplateTail

/-- make_svg (lines 245-269): the placeholder asset, svg.encode("utf-8"). -/
def make_svg (text : String) : ImgBytes := ImgBytes.utf8 (svgDocument text)

/-- Whether pat occurs at the start of l. -/
def startsWithChars : List Char → List Char → Bool
  | [], _ => true
  | _ :: _, [] => false
  | c :: cs, d :: ds => c == d && startsWithChars cs ds

/-- Python `pat in s` on character lists: contiguous substring test. -/
def containsChars (pat : List Char) : List Char → Bool
  | [] => startsWithChars pat []
  | d :: ds => startsWithChars pat (d :: ds) || containsChars pat ds

/-- Python `pat in ct` on strings. -/
def strIn (pat ct : String) : Bool := containsChars pat.data ct.data

/-- Content-type sniffing of the fetched image (lines 303-308). -/
def extFromContentType (ct : String) : String :=
  let c := pyLower ct
  if strIn "png" c then "png"
  else if strIn "jpeg" c then "jpg"
  else if strIn "jpg" c then "jpg"
  else if strIn "webp" c then "webp"
  else if strIn "svg" c then "svg"
  else "png"

/-- The backoff base of time.sleep(2 * (attempt + 1)) (lines 290, 316, 320). -/
def backoffBase : Nat := 2

/-- The result of generate_image, with the observable effects of the retry
loop: the attempt count actually consumed and the sleeps performed
between attempts. -/
structure ImgResult where
  bytes : ImgBytes
  ext : String
  attempts : Nat
  sleeps : List Nat
deriving DecidableEq, Repr

/-- The body of one iteration of the retry loop of generate_image
(lines 281-320).  Returns the produced asset, or an inr () when the
iteration falls through to the next attempt (after a sleep): on a 5xx
status, on a timeout or other RequestException — including the HTTPError
that r.raise_for_status() raises on the remaining 4xx statuses, which is
a subclass of RequestException and is therefore caught by the final
except clause at line 317. -/
def attemptStep (prompt : String) (a : Attempt) : (ImgBytes × String) ⊕ Unit :=
  match a with
  | Attempt.timeout => Sum.inr ()
  | Attempt.requestError => Sum.inr ()
  | Attempt.response r fetch =>
    if r.status = 401 ∨ r.status = 403 then
      Sum.inl (make_svg prompt, "svg")
    else if 500 ≤ r.status ∧ r.status < 600 then
      Sum.inr ()
    else if 400 ≤ r.status ∧ r.status < 600 then
      Sum.inr ()
    else
      match r.b64_json with
      | some b => Sum.inl (ImgBytes.b64decoded b, "png")
      | none =>
        match r.url with
        | some _ =>
          match fetch with
          | UrlFetch.success ct content => Sum.inl (ImgBytes.fetched content, extFromContentType ct)
          | UrlFetch.httpError => Sum.inr ()
          | UrlFetch.timeout => Sum.inr ()
        | none => Sum.inl (make_svg prompt, "svg")

/-- The retry loop of generate_image, iterating over at most three
outcomes (for attempt in range(3)); n counts the attempts already made
and sleeps the sleeps already performed.  When the loop ends without a
produced asset the SVG fallback of lines 322-324 is returned. -/
def generateImageLoop (prompt : String) : Nat → List Nat → List Attempt → ImgResult
  | n, sleeps, [] => ⟨make_svg prompt, "svg", n, sleeps⟩
  | n, sleeps, a :: rest =>
    if n < 3 then
      match attemptStep prompt a with
      | Sum.inl (b, e) => ⟨b, e, n + 1, sleeps⟩
      | Sum.inr () => generateImageLoop prompt (n + 1) (sleeps ++ [backoffBase * (n + 1)]) rest
    else ⟨make_svg prompt, "svg", n, sleeps⟩

/-- generate_image (lines 235-324) as a function of the successive
transport outcomes its requests would observe.  A run of the real
function corresponds to a list supplying at least three outcomes. -/
def generate_image (prompt : String) (outcomes : List Attempt) : ImgResult :=
  generateImageLoop prompt 0 [] outcomes

/-- A transient failure in the sense of the retry policy under test:
a 5xx status or a network timeout. -/
def transientFailure (a : Attempt) : Prop :=
  a = Attempt.timeout ∨
    ∃ r fetch, a = Attempt.response r fetch ∧ 500 ≤ r.status ∧ r.status < 600

/-! ## XML element trees (xml.etree.ElementTree) -/

/-- An XML element: tag, attributes, text, and child elements.  Comments
and tails are not used by the feed code and are omitted. -/
inductive Element where
  | elem (tag : String) (attrs : List (String × String)) (text : Option String)
      (children : List Element)

def Element.tag : Element → String
  | Element.elem t _ _ _ => t

def Element.attrs : Element → List (String × String)
  | Element.elem _ a _ _ => a

def Element.text : Element → Option String
  | Element.elem _ _ x _ => x

def Element.children : Element → List Element
  | Element.elem _ _ _ cs => cs

/-- Replace the children of an element. -/
def Element.withChildren : Element → List Element → Element
  | Element.elem t a x _, cs => Element.elem t a x cs

/-- ElementTree elem.find(tag): the first direct child with the tag. -/
def findChild (e : Element) (t : String) : Option Element :=
  e.children.find? (fun c => c.tag == t)

/-- ElementTree elem.findall(tag): all direct children with the tag,
in document order. -/
def childrenTagged (t : String) (cs : List Element) : List Element :=
  cs.filter (fun c => c.tag == t)

/-- Set the text of the first child carrying the given tag (the effect
of `lbd.text = ...` on the element returned by chan.find). -/
def setFirstText (t txt : String) : List Element → List Element
  | [] => []
  | c :: cs =>
    if c.tag == t then
      (Element.elem c.tag c.attrs (some txt) c.children) :: cs
    else c :: setFirstText t txt cs

/-- Apply f to the first child carrying the given tag (in-place mutation
of the element found by root.find). -/
def updateFirstChild (t : String) (f : Element → Element) : List Element → List Element
  | [] => []
  | c :: cs => if c.tag == t then f c :: cs else c :: updateFirstChild t f cs

/-- The feed document that ensure_feed writes when docs/feed.xml does not
exist (identical in all three script variants, lines 70-82 of
src/scripts/make_post.py), parsed: rss/channel with title, link,
description and lastBuildDate, and no items. -/
def ensureFeedDoc (baseUrl now0 : String) : Element :=
  Element.elem "rss" [("version", "2.0")] none [
    Element.elem "channel" [] none [
      Element.elem "title" [] (some "Your Automated Stories") [],
      Element.elem "link" [] (some (baseUrl ++ "/")) [],
      Element.elem "description" [] (some "Auto-generated stories") [],
      Element.elem "lastBuildDate" [] (some now0) []
    ]
  ]

/-- An rss document whose single channel has the given children; the
shape every run of this pipeline starts from and preserves. -/
def rssDoc (cs : List Element) : Element :=
  Element.elem "rss" [("version", "2.0")] none [Element.elem "channel" [] none cs]

/-! ## append_rss_item of src/scripts/make_post.py (lines 328-364) -/

/-- The arguments of append_rss_item(title, post_url, story_html,
img_abs_url, img_mime). -/
structure RssItemArgs where
  title : String
  post_url : String
  story_html : String
  img_abs_url : String
  img_mime : String
deriving DecidableEq, Repr

/-- The item element built at lines 340-350: title, link and guid (both
the post URL), pubDate, a description wrapping the story HTML in a
literal CDATA block with an img reference, and an enclosure with the
image URL and MIME type. -/
def rssItemElem (a : RssItemArgs) (now : String) : Element :=
  Element.elem "item" [] none [
    Element.elem "title" [] (some a.title) [],
    Element.elem "link" [] (some a.post_url) [],
    Element.elem "guid" [] (some a.post_url) [],
    Element.elem "pubDate" [] (some now) [],
    Element.elem "description" []
      (some ("<![CDATA[" ++ a.story_html ++ "<p><img src=\x27" ++ a.img_abs_url ++
        "\x27 alt=\x27illustration\x27/></p>]]>")) [],
    Element.elem "enclosure" [("url", a.img_abs_url), ("type", a.img_mime)] none []
  ]

/-- Remove the first k children tagged "item", keeping every other child
in place: the effect of chan.remove(old_item) for old_item in
items[:-MAX_POSTS], since that slice holds the first
(count - MAX_POSTS) items in document order. -/
def removeOldestItems : Nat → List Element → List Element
  | 0, cs => cs
  | _ + 1, [] => []
  | k + 1, c :: cs =>
    if c.tag == "item" then removeOldestItems k cs
    else c :: removeOldestItems (k + 1) cs

/-- The trim of lines 352-357: items = chan.findall("item"); if
len(items) > MAX_POSTS, remove the elements of items[:-MAX_POSTS].
When MAX_POSTS = 0 that Python slice is items[:0] = [], so nothing is
removed even though the count exceeds the capacity. -/
def trimChannelChildren (maxPosts : Nat) (cs : List Element) : List Element :=
  let items := childrenTagged "item" cs
  if items.length > maxPosts then
    if maxPosts = 0 then cs
    else removeOldestItems (items.length - maxPosts) cs
  else cs

/-- The update of the channel children performed by one append_rss_item
call: set (or, if missing, append) lastBuildDate, append the new item
as the last child, then trim. -/
def chanStep (maxPosts : Nat) (now : String) (a : RssItemArgs) (cs : List Element) : List Element :=
  let cs1 :=
    match cs.find? (fun c => c.tag == "lastBuildDate") with
    | some _ => setFirstText "lastBuildDate" now cs
    | none => cs ++ [Element.elem "lastBuildDate" [] (some now) []]
  trimChannelChildren maxPosts (cs1 ++ [rssItemElem a now])

/-- append_rss_item of src/scripts/make_post.py: parse the feed, fail
with RuntimeError when the channel element is missing (line 333) —
before anything is written back — otherwise update lastBuildDate,
append the item, trim to MAX_POSTS, and serialize.  now stands for the
utcnow() readings of the call; maxPosts for the MAX_FEED_POSTS
environment value (default 99).  The duplicated tostring/write at lines
363-364 rewrites the identical document and is not modelled separately. -/
def append_rss_item (maxPosts : Nat) (now : String) (a : RssItemArgs) (doc : Element) :
    Except String Element :=
  match findChild doc "channel" with
  | none => Except.error "Invalid RSS feed: missing <channel>"
  | some _ =>
    Except.ok (doc.withChildren (updateFirstChild "channel"
      (fun chan => chan.withChildren (chanStep maxPosts now a chan.children)) doc.children))

/-- The feed file across one append_rss_item call: FEED.write_bytes runs
only after the channel check has passed, so on the error path the
persisted document is untouched. -/
def persistedFeed (maxPosts : Nat) (now : String) (a : RssItemArgs) (doc : Element) : Element :=
  match append_rss_item maxPosts now a doc with
  | Except.ok d => d
  | Except.error _ => doc

/-- A sequence of append_rss_item calls, each with its own utcnow()
reading; the feed is re-read between calls, so the document threads
through. -/
def appendRun (maxPosts : Nat) : Element → List (String × RssItemArgs) → Except String Element
  | doc, [] => Except.ok doc
  | doc, (now, a) :: rest =>
    match append_rss_item maxPosts now a doc with
    | Except.error e => Except.error e
    | Except.ok d => appendRun maxPosts d rest

/-- The post-URL texts of the link children of the channel items, in
document order: the observable identity and order of the stored items. -/
def itemLinks (doc : Element) : List String :=
  match findChild doc "channel" with
  | some chan =>
    (childrenTagged "item" chan.children).map
      (fun it => ((findChild it "link").bind Element.text).getD "")
  | none => []

/-- The item children of the channel of a document. -/
def channelItems (doc : Element) : List Element :=
  match findChild doc "channel" with
  | some chan => childrenTagged "item" chan.children
  | none => []

/-- The effect of the trim of append_rss_item on the item sequence
alone: when the count exceeds the capacity, drop the oldest
(count - capacity) items — except that a capacity of 0 drops nothing,
because the Python slice items[:-0] is empty. -/
def pyTrimList {α : Type} (n : Nat) (l : List α) : List α :=
  if l.length > n then
    if n = 0 then l else l.drop (l.length - n)
  else l

/-- Every lastBuildDate child in the list is childless — the invariant
under which the make_postold.py truthiness test always takes the
SubElement branch. -/
def LbdChildless (cs : List Element) : Prop :=
  ∀ c ∈ cs, c.tag = "lastBuildDate" → c.children = []

/-- The lastBuildDate texts of a channel children list. -/
def lbdTextsOf (cs : List Element) : List String :=
  (childrenTagged "lastBuildDate" cs).map (fun c => c.text.getD "")

/-! ## append_rss_item of src/make_posts.py (lines 156-180) -/

namespace MakePosts

/-- The arguments of make_posts.py append_rss_item(title, post_url,
story_html, img_abs_url): no MIME type is passed. -/
structure ItemArgs where
  title : String
  post_url : String
  story_html : String
  img_abs_url : String
deriving DecidableEq, Repr

/-- The item element built at lines 170-176: title, link, guid, pubDate
and description only — no enclosure element is created. -/
def itemElem (a : ItemArgs) (now : String) : Element :=
  Element.elem "item" [] none [
    Element.elem "title" [] (some a.title) [],
    Element.elem "link" [] (some a.post_url) [],
    Element.elem "guid" [] (some a.post_url) [],
    Element.elem "pubDate" [] (some now) [],
    Element.elem "description" []
      (some ("<![CDATA[" ++ a.story_html ++ "<p><img src=\x27" ++ a.img_abs_url ++
        "\x27 alt=\x27illustration\x27/></p>]]>")) []
  ]

/-- Channel update of one make_posts.py append_rss_item call: update (or
append, when missing) lastBuildDate, then append the item.  There is no
trim in this variant. -/
def chanStep (now : String) (a : ItemArgs) (cs : List Element) : List Element :=
  let cs1 :=
    match cs.find? (fun c => c.tag == "lastBuildDate") with
    | some _ => setFirstText "lastBuildDate" now cs
    | none => cs ++ [Element.elem "lastBuildDate" [] (some now) []]
  cs1 ++ [itemElem a now]

/-- append_rss_item of src/make_posts.py: RuntimeError when the channel
is missing, else lastBuildDate update and item append, no trim, no
enclosure. -/
def append_rss_item (now : String) (a : ItemArgs) (doc : Element) : Except String Element :=
  match findChild doc "channel" with
  | none => Except.error "Invalid RSS feed: missing <channel>"
  | some _ =>
    Except.ok (doc.withChildren (updateFirstChild "channel"
      (fun chan => chan.withChildren (chanStep now a chan.children)) doc.children))

end MakePosts

/-! ## append_rss_item of src/scripts/make_postold.py (lines 130-151) -/

namespace MakePostOld

/-- The arguments of make_postold.py append_rss_item. -/
structure ItemArgs where
  title : String
  post_url : String
  story_html : String
  img_abs_url : String
deriving DecidableEq, Repr

/-- The item element built at lines 142-148: title, link, guid, pubDate
and description; no enclosure. -/
def itemElem (a : ItemArgs) (now : String) : Element :=
  Element.elem "item" [] none [
    Element.elem "title" [] (some a.title) [],
    Element.elem "link" [] (some a.post_url) [],
    Element.elem "guid" [] (some a.post_url) [],
    Element.elem "pubDate" [] (some now) [],
    Element.elem "description" []
      (some ("<![CDATA[" ++ a.story_html ++ "<p><img src=\x27" ++ a.img_abs_url ++
        "\x27 alt=\x27illustration\x27/></p>]]>")) []
  ]

/-- Line 138: lbd = chan.find("lastBuildDate") or ET.SubElement(chan,
"lastBuildDate").  An ElementTree element is truthy exactly when it has
child elements, so a found lastBuildDate with no children is falsy and
the right operand runs, appending a brand-new lastBuildDate to the
channel; only when the found element has children is it reused.  The
following line sets the text of whichever element lbd names. -/
def chanStep (now : String) (a : ItemArgs) (cs : List Element) : List Element :=
  let cs1 :=
    match cs.find? (fun c => c.tag == "lastBuildDate") with
    | some e =>
      if e.children.length ≠ 0 then setFirstText "lastBuildDate" now cs
      else cs ++ [Element.elem "lastBuildDate" [] (some now) []]
    | none => cs ++ [Element.elem "lastBuildDate" [] (some now) []]
  cs1 ++ [itemElem a now]

/-- append_rss_item of src/scripts/make_postold.py. -/
def append_rss_item (now : String) (a : ItemArgs) (doc : Element) : Except String Element :=
  match findChild doc "channel" with
  | none => Except.error "Invalid RSS feed: missing <channel>"
  | some _ =>
    Except.ok (doc.withChildren (updateFirstChild "channel"
      (fun chan => chan.withChildren (chanStep now a chan.children)) doc.children))

/-- A sequence of make_postold.py append_rss_item calls. -/
def appendRun : Element → List (String × ItemArgs) → Except String Element
  | doc, [] => Except.ok doc
  | doc, (now, a) :: rest =>
    match append_rss_item now a doc with
    | Except.error e => Except.error e
    | Except.ok d => appendRun d rest

end MakePostOld

/-- The texts of the lastBuildDate children of the channel, in document
order. -/
def lbdTexts (doc : Element) : List String :=
  match findChild doc "channel" with
  | some chan =>
    (childrenTagged "lastBuildDate" chan.children).map (fun c => c.text.getD "")
  | none => []

/-! ## main of src/scripts/make_post.py (lines 368-534) -/

/-- The names defined at module level in src/scripts/make_post.py: the
imports of lines 20-27 and the assignments and defs of lines 30-368.
RANDOM_HOUR_START, RANDOM_HOUR_END, MAX_FEED_POSTS and trim_feed are
nowhere among them, and the random module is never imported. -/
def makePostGlobalNames : List String :=
  ["os", "re", "json", "base64", "requests", "datetime", "Path", "ET",
   "OPENAI_API_KEY", "MODEL", "IMG_MODEL", "TOPIC", "MIN_WORDS", "MAX_WORDS",
   "IMG_SIZE", "PUBLIC_BASE_URL", "ROOT", "DOCS", "POSTS", "IMGS", "FEED",
   "utcnow", "utcnow_randomized_today", "slugify", "ensure_feed",
   "get_story_and_prompt", "generate_image", "append_rss_item", "main"]

/-- The Python builtins the relevant lines use. -/
def pyBuiltins : List String :=
  ["max", "min", "len", "print", "range", "int", "open", "str"]

/-- Python exceptions surfacing out of a run. -/
inductive PyExc where
  | nameError (n : String)
  | runtimeError (msg : String)
deriving DecidableEq, Repr

/-- Resolution of a global name: a NameError when the name is neither a
module global nor a builtin. -/
def pyName (n : String) : Except PyExc Unit :=
  if n ∈ makePostGlobalNames ∨ n ∈ pyBuiltins then Except.ok ()
  else Except.error (PyExc.nameError n)

/-- utcnow_randomized_today (lines 52-62): after the utcnow() call, line
57 evaluates RANDOM_HOUR_START, line 58 RANDOM_HOUR_END, and lines
59-61 the random module, in that order; the produced datetime itself is
abstracted to Unit. -/
def utcnow_randomized_today : Except PyExc Unit := do
  let _ ← pyName "utcnow"
  let _ ← pyName "RANDOM_HOUR_START"
  let _ ← pyName "RANDOM_HOUR_END"
  let _ ← pyName "random"
  Except.ok ()

/-- The externally visible writes of one main() invocation. -/
structure RunEffects where
  feedInitialized : Bool
  imageWritten : Bool
  postWritten : Bool
  feedItemAppended : Bool
deriving DecidableEq, Repr

/-- main of src/scripts/make_post.py (lines 368-534) over its inputs:
whether the feed file already exists, the outcome of normalization
(get_story_and_prompt either returns a record or raises RuntimeError),
the transport outcomes the image request would observe, and the
persisted feed document.  The statement order follows the source:
ensure_feed (369), get_story_and_prompt (370), utcnow_randomized_today
(373), generate_image and the image write (378-381), the post write
(515), append_rss_item (518), and the MAX_FEED_POSTS test of line 521
(with the trim_feed call of line 522 behind it). -/
def mainModel (feedExists : Bool) (normalized : Option StoryRecord)
    (imgOutcomes : List Attempt) (feedDoc : Element) : Except PyExc Unit × RunEffects :=
  let eff0 : RunEffects := ⟨!feedExists, false, false, false⟩
  match normalized with
  | none => (Except.error (PyExc.runtimeError "Failed to get story JSON after fallback"), eff0)
  | some story =>
    match utcnow_randomized_today with
    | Except.error e => (Except.error e, eff0)
    | Except.ok _ =>
      let img := generate_image story.image_prompt imgOutcomes
      let eff1 : RunEffects := ⟨eff0.feedInitialized, true, false, false⟩
      let eff2 : RunEffects := ⟨eff1.feedInitialized, true, true, false⟩
      match append_rss_item 99 "now"
          ⟨story.title, "post_url", story.story_html, "img_abs_url", img.ext⟩ feedDoc with
      | Except.error e => (Except.error (PyExc.runtimeError e), eff2)
      | Except.ok _ =>
        let eff3 : RunEffects := ⟨eff2.feedInitialized, true, true, true⟩
        match pyName "MAX_FEED_POSTS" with
        | Except.error e => (Except.error e, eff3)
        | Except.ok _ => (Except.ok (), eff3)

end StoryFeed

namespace StoryFeed

/-! ## Helper lemmas -/

/-- A transiently failing attempt falls through its loop iteration. -/
theorem attemptStep_transient (prompt : String) (a : Attempt) (h : transientFailure a) :
    attemptStep prompt a = Sum.inr () := by
  rcases h with h | ⟨r, fetch, rfl, h5, h6⟩
  · subst h; rfl
  · simp only [attemptStep]
    rw [if_neg (by omega), if_pos ⟨h5, h6⟩]

/-! ## C1 -/

/-- C1: for every prompt, a 401 or 403 response makes generate_image
return, on that very attempt with no retry and no sleep, the placeholder
asset of format svg whose bytes are the UTF-8 SVG document embedding the
sanitized, length-truncated snippet of the prompt; no exception escapes
(the model is total and yields a result on this path). -/
theorem claim1_permission_denied_svg_placeholder
    (prompt : String) (r : HttpResponse) (fetch : UrlFetch) (rest : List Attempt)
    (h : r.status = 401 ∨ r.status = 403) :
    generate_image prompt (Attempt.response r fetch :: rest) =
      ⟨make_svg prompt, "svg", 1, []⟩ ∧
    List.IsInfix (svgSnippet prompt).data (svgDocument prompt).data ∧
    (svgSnippet prompt).length ≤ 183 := by
  refine ⟨?_, ?_, ?_⟩
  · unfold generate_image generateImageLoop
    rw [if_pos (by omega : (0 : Nat) < 3)]
    simp only [attemptStep]
    rw [if_pos h]
  · exact ⟨svgTemplateHead.data, svgTemplateTail.data, by
      simp [svgDocument, String.data_append]⟩
  · unfold svgSnippet
    by_cases hl : (svgSafe prompt).length > 180
    · rw [if_pos hl, String.length_append]
      have h1 : (String.mk ((svgSafe prompt).data.take 180)).length = 180 := by
        show ((svgSafe prompt).data.take 180).length = 180
        rw [List.length_take]
        have : (svgSafe prompt).data.length = (svgSafe prompt).length := rfl
        omega
      have h2 : ("‚Ä¶" : String).length = 3 := by decide
      omega
    · rw [if_neg hl]; omega

/-- Witness for C1 at a concrete 403 response. -/
theorem claim1_witness :
    generate_image "p" [Attempt.response ⟨403, none, none⟩ UrlFetch.timeout] =
      ⟨make_svg "p", "svg", 1, []⟩ ∧
    List.IsInfix (svgSnippet "p").data (svgDocument "p").data ∧
    (svgSnippet "p").length ≤ 183 :=
  claim1_permission_denied_svg_placeholder "p" ⟨403, none, none⟩ UrlFetch.timeout []
    (Or.inr rfl)

/-! ## C2 -/

/-- C2: two transient failures (5xx or timeout) followed by a 200
response with inline image data yield exactly 3 attempts, with the
linear-backoff sleeps base*1 and base*2 between them, and the decoded
bytes and png format from the third response. -/
theorem claim2_retry_linear_backoff_third_success
    (prompt b64 : String) (u : Option String) (f : UrlFetch) (a1 a2 : Attempt)
    (h1 : transientFailure a1) (h2 : transientFailure a2) :
    generate_image prompt [a1, a2, Attempt.response ⟨200, some b64, u⟩ f] =
      ⟨ImgBytes.b64decoded b64, "png", 3, [backoffBase * 1, backoffBase * 2]⟩ := by
  unfold generate_image generateImageLoop
  rw [if_pos (by omega : (0 : Nat) < 3), attemptStep_transient prompt a1 h1]
  show generateImageLoop prompt 1 [backoffBase * 1] _ = _
  unfold generateImageLoop
  rw [if_pos (by omega : (1 : Nat) < 3), attemptStep_transient prompt a2 h2]
  show generateImageLoop prompt 2 [backoffBase * 1, backoffBase * 2] _ = _
  unfold generateImageLoop
  rw [if_pos (by omega : (2 : Nat) < 3)]
  simp only [attemptStep]
  rw [if_neg (by decide), if_neg (by decide), if_neg (by decide)]

/-- Witness for C2: a 503 response, then a timeout, then a 200 with
inline data. -/
theorem claim2_witness :
    generate_image "p"
      [Attempt.response ⟨503, none, none⟩ UrlFetch.timeout, Attempt.timeout,
       Attempt.response ⟨200, some "QUJD", none⟩ UrlFetch.timeout] =
      ⟨ImgBytes.b64decoded "QUJD", "png", 3, [backoffBase * 1, backoffBase * 2]⟩ :=
  claim2_retry_linear_backoff_third_success "p" "QUJD" none UrlFetch.timeout _ _
    (Or.inr ⟨⟨503, none, none⟩, UrlFetch.timeout, rfl, by decide, by decide⟩)
    (Or.inl rfl)

/-! ## C6 -/

/-- C6 evaluated at the failing input: three 404 responses.  The claim
says a 4xx status other than 401/403 is not retried; the code, however,
lets r.raise_for_status() raise HTTPError — a subclass of
RequestException — which the final except clause catches, so it sleeps
and retries: three attempts are consumed, with sleeps 2, 4 and 6, before
the SVG fallback. -/
theorem claim6_404_is_retried :
    generate_image "p"
      [Attempt.response ⟨404, none, none⟩ UrlFetch.timeout,
       Attempt.response ⟨404, none, none⟩ UrlFetch.timeout,
       Attempt.response ⟨404, none, none⟩ UrlFetch.timeout] =
      ⟨make_svg "p", "svg", 3, [2, 4, 6]⟩ := by
  rfl

/-! ## C4 -/

/-- C4, amended: the slugify of src/scripts/make_post.py behaves as the
claim describes — the quoted example maps to "midnight-run-2024", an
empty sanitization result yields "story", and the output never exceeds
60 characters — but the src/make_posts.py copy of slugify raises
re.error on every call (its raw-string patterns double the backslash,
making the first character class an invalid descending range), so in
particular it does not return "midnight-run-2024" for the quoted
example. -/
theorem claim4_slugify_sanitization :
    slugify "Midnight! Run?? (2024)" = "midnight-run-2024" ∧
    (∀ s, slugCore s = "" → slugify s = "story") ∧
    (∀ s, (slugify s).length ≤ 60) ∧
    (∀ s, MakePosts.slugify s =
      Except.error "bad character range \x5c\x5c-  at position 11") ∧
    MakePosts.slugify "Midnight! Run?? (2024)" ≠ Except.ok "midnight-run-2024" := by
  refine ⟨by decide, ?_, ?_, fun s => rfl, fun hcontra => Except.noConfusion hcontra⟩
  · intro s hs
    unfold slugify
    rw [if_pos hs]
  · intro s
    unfold slugify
    by_cases hs : slugCore s = ""
    · rw [if_pos hs]; decide
    · rw [if_neg hs]
      show ((String.mk (collapseSpaces _)).data.take 60).length ≤ 60
      rw [List.length_take]
      omega

/-- Witness for C4 at a title that sanitizes to the empty string. -/
theorem claim4_witness : slugCore "???" = "" ∧ slugify "???" = "story" :=
  ⟨by decide, claim4_slugify_sanitization.2.1 "???" (by decide)⟩

/-! ## C5 -/

/-- C5 counterexample, one failure per cited normalizer.  In
scripts/make_post.py's try_parse_obj: the title " Foo " is present and
non-empty, yet the returned record carries the stripped "Foo", not the
payload title — and a payload without the title key yields no record at
all rather than one with the default title, because that matcher
requires all three keys.  In src/make_posts.py's chat-completions
fallback (lines 130-132): an empty story_html is returned verbatim
(refuting the non-emptiness invariant), an empty title is returned
as-is instead of the default, and a missing title key raises KeyError —
no record, no default. -/
theorem claim5_counterexample :
    try_parse_obj
      [("title", some " Foo "), ("story_html", some "x"), ("image_prompt", some "y")] =
      some ⟨"Foo", "x", "y"⟩ ∧ ("Foo" : String) ≠ " Foo " ∧
    try_parse_obj [("story_html", some "x"), ("image_prompt", some "y")] = none ∧
    MakePosts.chatFallbackTriple
      [("title", some "T"), ("story_html", some ""), ("image_prompt", some "p")] =
      Except.ok (some "T", some "", some "p") ∧
    MakePosts.chatFallbackTriple
      [("title", some ""), ("story_html", some "s"), ("image_prompt", some "p")] =
      Except.ok (some "", some "s", some "p") ∧
    MakePosts.chatFallbackTriple [("story_html", some "x"), ("image_prompt", some "y")] =
      Except.error "KeyError: title" := by
  exact ⟨by decide, by decide, by decide, by rfl, by rfl, by rfl⟩

/-- C5, amended, covering both cited normalizers.  Records returned by
scripts/make_post.py's try_parse_obj have non-empty story_html and
image_prompt, all three keys present in the matched object (a missing
title key yields no record, not a default), and a title equal to the
payload title stripped of surrounding whitespace when that value is a
non-empty string and to "Automated Story" when it is null or empty.
Records returned by src/make_posts.py's Responses-path normalization
(lines 103-110) behave as the claim states: non-empty story_html and
image_prompt, title equal to the payload title (unstripped) when
present and non-empty and otherwise the default, and title the only
optional field — an absent title still yields a record with the
default.  The chat-completions fallback of src/make_posts.py (lines
130-132), however, returns the three obj[...] values verbatim whenever
all three keys are present — no non-emptiness check, no title
default — and raises KeyError (no record) when the title key is
missing.  In every path, no partial record is returned. -/
theorem claim5_normalized_record_shape :
    (∀ (d : JDict) (r : StoryRecord), try_parse_obj d = some r →
      r.story_html ≠ "" ∧ r.image_prompt ≠ "" ∧
      hasKey d "title" = true ∧ hasKey d "story_html" = true ∧
      hasKey d "image_prompt" = true ∧
      (∀ v, pyGet d "title" = some v → v ≠ "" → r.title = pyStrip v) ∧
      (pyGet d "title" = none ∨ pyGet d "title" = some "" →
        r.title = "Automated Story")) ∧
    (∀ (d : JDict) (r : StoryRecord), MakePosts.normalizeResponses d = some r →
      r.story_html ≠ "" ∧ r.image_prompt ≠ "" ∧
      (∀ v, pyGet d "title" = some v → v ≠ "" → r.title = v) ∧
      (pyGet d "title" = none ∨ pyGet d "title" = some "" →
        r.title = "Automated Story")) ∧
    (∀ (d : JDict) (sh ip : String), pyGet d "story_html" = some sh → sh ≠ "" →
      pyGet d "image_prompt" = some ip → ip ≠ "" → pyGet d "title" = none →
      MakePosts.normalizeResponses d = some ⟨"Automated Story", sh, ip⟩) ∧
    (∀ (d : JDict) (t s p : Option String),
      pyIndex d "title" = Except.ok t → pyIndex d "story_html" = Except.ok s →
      pyIndex d "image_prompt" = Except.ok p →
      MakePosts.chatFallbackTriple d = Except.ok (t, s, p)) ∧
    (∀ (d : JDict), hasKey d "title" = false →
      MakePosts.chatFallbackTriple d = Except.error "KeyError: title") := by
  refine ⟨?_, ?_, ?_, ?_, ?_⟩
  · intro d r h
    unfold try_parse_obj at h
    by_cases hk : (hasKey d "title" && hasKey d "story_html" && hasKey d "image_prompt") = true
    · rw [if_pos hk] at h
      by_cases hne : (pyGet d "story_html").getD "" ≠ "" ∧ (pyGet d "image_prompt").getD "" ≠ ""
      · rw [if_pos hne] at h
        have hr := (Option.some.injEq _ _).mp h
        have h1 : hasKey d "title" = true := by
          rcases Bool.and_eq_true_iff.mp hk with ⟨hk1, _⟩
          exact (Bool.and_eq_true_iff.mp hk1).1
        have h2 : hasKey d "story_html" = true := by
          rcases Bool.and_eq_true_iff.mp hk with ⟨hk1, _⟩
          exact (Bool.and_eq_true_iff.mp hk1).2
        have h3 : hasKey d "image_prompt" = true := (Bool.and_eq_true_iff.mp hk).2
        refine ⟨?_, ?_, h1, h2, h3, ?_, ?_⟩
        · rw [← hr]; exact hne.1
        · rw [← hr]; exact hne.2
        · intro v hv hvne
          rw [← hr]
          show pyStrip (pyOrStr (pyGet d "title") "Automated Story") = pyStrip v
          rw [hv]
          simp only [pyOrStr]
          rw [if_neg hvne]
        · intro hv
          rw [← hr]
          show pyStrip (pyOrStr (pyGet d "title") "Automated Story") = "Automated Story"
          rcases hv with hv | hv
          · rw [hv]; decide
          · rw [hv]; decide
      · rw [if_neg hne] at h
        exact absurd h (by simp)
    · rw [if_neg hk] at h
      exact absurd h (by simp)
  · intro d r h
    cases hsh : pyGet d "story_html" with
    | none =>
      unfold MakePosts.normalizeResponses at h
      rw [hsh] at h
      exact absurd h (by simp)
    | some sh =>
      cases hip : pyGet d "image_prompt" with
      | none =>
        unfold MakePosts.normalizeResponses at h
        rw [hsh, hip] at h
        exact absurd h (by simp)
      | some ip =>
        unfold MakePosts.normalizeResponses at h
        rw [hsh, hip] at h
        have h2 : (if sh ≠ "" ∧ ip ≠ "" then
            some (⟨pyOrStr (pyGet d "title") "Automated Story", sh, ip⟩ : StoryRecord)
          else none) = some r := h
        by_cases hcond : sh ≠ "" ∧ ip ≠ ""
        · rw [if_pos hcond] at h2
          have hr := (Option.some.injEq _ _).mp h2
          refine ⟨?_, ?_, ?_, ?_⟩
          · rw [← hr]; exact hcond.1
          · rw [← hr]; exact hcond.2
          · intro v hv hvne
            rw [← hr]
            show pyOrStr (pyGet d "title") "Automated Story" = v
            rw [hv]
            simp only [pyOrStr]
            rw [if_neg hvne]
          · intro hv
            rw [← hr]
            show pyOrStr (pyGet d "title") "Automated Story" = "Automated Story"
            rcases hv with hv | hv
            · rw [hv]; rfl
            · rw [hv]; decide
        · rw [if_neg hcond] at h2
          exact absurd h2 (by simp)
  · intro d sh ip hsh hshne hip hipne ht
    unfold MakePosts.normalizeResponses
    rw [hsh, hip]
    show (if sh ≠ "" ∧ ip ≠ "" then
        some (⟨pyOrStr (pyGet d "title") "Automated Story", sh, ip⟩ : StoryRecord)
      else none) = _
    rw [if_pos ⟨hshne, hipne⟩, ht]
    rfl
  · intro d t s p h1 h2 h3
    unfold MakePosts.chatFallbackTriple
    rw [h1, h2, h3]
  · intro d hk
    have hfind : d.find? (fun p => p.1 == "title") = none := by
      rw [List.find?_eq_none]
      intro x hx hxp
      have hany : d.any (fun p => p.1 == "title") = true :=
        List.any_eq_true.mpr ⟨x, hx, hxp⟩
      unfold hasKey at hk
      rw [hk] at hany
      exact Bool.noConfusion hany
    unfold MakePosts.chatFallbackTriple pyIndex
    rw [hfind]
    rfl

/-- Witness for C5: each conjunct of the amended claim exercised at a
concrete payload. -/
theorem claim5_witness :
    (⟨"T", "x", "y"⟩ : StoryRecord).story_html ≠ "" ∧
    (⟨"T", "x", "y"⟩ : StoryRecord).title = pyStrip "T" ∧
    MakePosts.normalizeResponses [("story_html", some "x"), ("image_prompt", some "y")] =
      some ⟨"Automated Story", "x", "y"⟩ ∧
    MakePosts.chatFallbackTriple
      [("title", some "T"), ("story_html", some "s"), ("image_prompt", some "p")] =
      Except.ok (some "T", some "s", some "p") ∧
    MakePosts.chatFallbackTriple [("story_html", some "x")] =
      Except.error "KeyError: title" :=
  ⟨(claim5_normalized_record_shape.1
      [("title", some "T"), ("story_html", some "x"), ("image_prompt", some "y")]
      ⟨"T", "x", "y"⟩ (by decide)).1,
   (claim5_normalized_record_shape.1
      [("title", some "T"), ("story_html", some "x"), ("image_prompt", some "y")]
      ⟨"T", "x", "y"⟩ (by decide)).2.2.2.2.2.1 "T" (by rfl) (by decide),
   claim5_normalized_record_shape.2.2.1
      [("story_html", some "x"), ("image_prompt", some "y")] "x" "y"
      (by rfl) (by decide) (by rfl) (by decide) (by rfl),
   claim5_normalized_record_shape.2.2.2.1
      [("title", some "T"), ("story_html", some "s"), ("image_prompt", some "p")]
      (some "T") (some "s") (some "p") (by rfl) (by rfl) (by rfl),
   claim5_normalized_record_shape.2.2.2.2 [("story_html", some "x")] (by decide)⟩

/-! ## C7 -/

/-- C7: when the persisted feed document has no channel element,
append_rss_item raises the fatal RuntimeError at line 333, before the
write at line 361 can run, so the persisted feed document is unchanged
on the error path. -/
theorem claim7_missing_channel_aborts_without_write
    (maxPosts : Nat) (now : String) (a : RssItemArgs) (doc : Element)
    (h : findChild doc "channel" = none) :
    append_rss_item maxPosts now a doc =
      Except.error "Invalid RSS feed: missing <channel>" ∧
    persistedFeed maxPosts now a doc = doc := by
  constructor
  · unfold append_rss_item
    rw [h]
  · unfold persistedFeed append_rss_item
    rw [h]

/-- Witness for C7 at an rss root with no channel child. -/
theorem claim7_witness :
    append_rss_item 99 "t" ⟨"T", "u", "s", "i", "image/png"⟩
        (Element.elem "rss" [] none []) =
      Except.error "Invalid RSS feed: missing <channel>" ∧
    persistedFeed 99 "t" ⟨"T", "u", "s", "i", "image/png"⟩
        (Element.elem "rss" [] none []) =
      Element.elem "rss" [] none [] :=
  claim7_missing_channel_aborts_without_write 99 "t" ⟨"T", "u", "s", "i", "image/png"⟩
    (Element.elem "rss" [] none []) rfl

/-! ## C9 -/

/-- The first undefined name main reaches: line 57 of
utcnow_randomized_today evaluates RANDOM_HOUR_START. -/
theorem utcnow_randomized_today_raises :
    utcnow_randomized_today = Except.error (PyExc.nameError "RANDOM_HOUR_START") := by
  rfl

/-- C9: every main() invocation of src/scripts/make_post.py that gets a
record past normalization stops with NameError("RANDOM_HOUR_START") at
the utcnow_randomized_today call of line 373 — before any image, post
artifact or feed item is written; only ensure_feed's initialization can
have taken effect.  RANDOM_HOUR_START, RANDOM_HOUR_END, the random
module, MAX_FEED_POSTS and trim_feed are all absent from the module
globals (and from the builtins the code uses), and no input whatsoever
lets this main return normally. -/
theorem claim9_main_always_raises_nameerror
    (feedExists : Bool) (story : StoryRecord) (imgOutcomes : List Attempt)
    (feedDoc : Element) :
    mainModel feedExists (some story) imgOutcomes feedDoc =
      (Except.error (PyExc.nameError "RANDOM_HOUR_START"),
       ⟨!feedExists, false, false, false⟩) ∧
    ("RANDOM_HOUR_START" ∉ makePostGlobalNames ∧ "RANDOM_HOUR_START" ∉ pyBuiltins) ∧
    ("RANDOM_HOUR_END" ∉ makePostGlobalNames ∧ "RANDOM_HOUR_END" ∉ pyBuiltins) ∧
    ("random" ∉ makePostGlobalNames ∧ "random" ∉ pyBuiltins) ∧
    ("MAX_FEED_POSTS" ∉ makePostGlobalNames ∧ "MAX_FEED_POSTS" ∉ pyBuiltins) ∧
    ("trim_feed" ∉ makePostGlobalNames ∧ "trim_feed" ∉ pyBuiltins) ∧
    (∀ (fe : Bool) (n : Option StoryRecord) (im : List Attempt) (d : Element),
      (mainModel fe n im d).1 ≠ Except.ok ()) := by
  refine ⟨?_, by decide, by decide, by decide, by decide, by decide, ?_⟩
  · unfold mainModel
    rw [utcnow_randomized_today_raises]
  · intro fe n im d
    cases n with
    | none => simp [mainModel]
    | some st =>
      unfold mainModel
      rw [utcnow_randomized_today_raises]
      simp

/-! ## Feed projection lemmas -/

/-- Setting the text of a child with one tag leaves the children of any
other tag untouched. -/
theorem childrenTagged_setFirstText (tg t txt : String) (cs : List Element)
    (h : t ≠ tg) :
    childrenTagged tg (setFirstText t txt cs) = childrenTagged tg cs := by
  induction cs with
  | nil => rfl
  | cons c cs ih =>
    unfold setFirstText
    by_cases hc : (c.tag == t) = true
    · rw [if_pos hc]
      have hct : c.tag = t := beq_iff_eq.mp hc
      unfold childrenTagged
      rw [List.filter_cons, List.filter_cons]
      have hne : ((Element.elem c.tag c.attrs (some txt) c.children).tag == tg) = false := by
        show (c.tag == tg) = false
        rw [hct]
        exact beq_eq_false_iff_ne.mpr h
      have hne2 : (c.tag == tg) = false := by
        rw [hct]; exact beq_eq_false_iff_ne.mpr h
      rw [hne, hne2]
      simp only [Bool.false_eq_true, if_false]
    · rw [if_neg hc]
      unfold childrenTagged
      rw [List.filter_cons, List.filter_cons]
      unfold childrenTagged at ih
      by_cases hg : (c.tag == tg) = true
      · rw [hg]
        simp only [if_pos rfl]
        rw [ih]
      · rw [Bool.not_eq_true] at hg
        rw [hg]
        simp only [Bool.false_eq_true, if_false]
        exact ih

/-- childrenTagged distributes over append. -/
theorem childrenTagged_append (tg : String) (as bs : List Element) :
    childrenTagged tg (as ++ bs) = childrenTagged tg as ++ childrenTagged tg bs :=
  List.filter_append as bs

/-- Removing the k oldest items drops exactly the first k elements of
the item subsequence. -/
theorem childrenTagged_removeOldestItems (cs : List Element) :
    ∀ k, childrenTagged "item" (removeOldestItems k cs) =
      (childrenTagged "item" cs).drop k := by
  induction cs with
  | nil => intro k; cases k <;> rfl
  | cons c cs ih =>
    intro k
    cases k with
    | zero => rfl
    | succ k =>
      unfold removeOldestItems
      by_cases hc : (c.tag == "item") = true
      · rw [if_pos hc]
        unfold childrenTagged
        rw [List.filter_cons, hc]
        simp only [if_pos rfl, List.drop_succ_cons]
        exact ih k
      · rw [if_neg hc]
        unfold childrenTagged
        rw [List.filter_cons, List.filter_cons]
        rw [Bool.not_eq_true] at hc
        rw [hc]
        simp only [Bool.false_eq_true, if_false]
        exact ih (k + 1)

/-- The trim acts on the item subsequence as pyTrimList and is the
identity elsewhere. -/
theorem childrenTagged_trim (n : Nat) (cs : List Element) :
    childrenTagged "item" (trimChannelChildren n cs) =
      pyTrimList n (childrenTagged "item" cs) := by
  unfold trimChannelChildren pyTrimList
  by_cases hgt : (childrenTagged "item" cs).length > n
  · rw [if_pos hgt, if_pos hgt]
    by_cases hz : n = 0
    · rw [if_pos hz, if_pos hz]
    · rw [if_neg hz, if_neg hz]
      exact childrenTagged_removeOldestItems cs _
  · rw [if_neg hgt, if_neg hgt]

/-- One append_rss_item call appends exactly one item element and trims:
the item subsequence becomes pyTrimList of the old one extended by the
new item. -/
theorem chanStep_items (n : Nat) (now : String) (a : RssItemArgs) (cs : List Element) :
    childrenTagged "item" (chanStep n now a cs) =
      pyTrimList n (childrenTagged "item" cs ++ [rssItemElem a now]) := by
  unfold chanStep
  rw [childrenTagged_trim]
  congr 1
  have hitem : childrenTagged "item" [rssItemElem a now] = [rssItemElem a now] := rfl
  have hlbd : childrenTagged "item" [Element.elem "lastBuildDate" [] (some now) []] = [] := rfl
  cases hf : cs.find? (fun c => c.tag == "lastBuildDate") with
  | some e =>
    simp only
    rw [childrenTagged_append, childrenTagged_setFirstText _ _ _ _ (by decide), hitem]
  | none =>
    simp only
    rw [childrenTagged_append, childrenTagged_append, hitem, hlbd, List.append_nil]

/-- append_rss_item on a document of the canonical rss/channel shape
succeeds and rewrites the channel children through chanStep. -/
theorem append_rss_item_rssDoc (n : Nat) (now : String) (a : RssItemArgs)
    (cs : List Element) :
    append_rss_item n now a (rssDoc cs) = Except.ok (rssDoc (chanStep n now a cs)) := by
  rfl

/-- A run of append_rss_item calls on the canonical shape folds chanStep
over the channel children. -/
theorem appendRun_rssDoc (n : Nat) :
    ∀ (runs : List (String × RssItemArgs)) (cs : List Element),
      appendRun n (rssDoc cs) runs =
        Except.ok (rssDoc (runs.foldl (fun cs p => chanStep n p.1 p.2 cs) cs)) := by
  intro runs
  induction runs with
  | nil => intro cs; rfl
  | cons p rest ih =>
    intro cs
    show appendRun n (rssDoc cs) (p :: rest) = _
    unfold appendRun
    rw [append_rss_item_rssDoc]
    exact ih (chanStep n p.1 p.2 cs)

/-- The item subsequence of a folded run is the list-level fold of
pyTrimList over the item elements of the calls. -/
theorem foldl_chanStep_items (n : Nat) :
    ∀ (runs : List (String × RssItemArgs)) (cs : List Element),
      childrenTagged "item" (runs.foldl (fun cs p => chanStep n p.1 p.2 cs) cs) =
        (runs.map (fun p => rssItemElem p.2 p.1)).foldl
          (fun acc x => pyTrimList n (acc ++ [x])) (childrenTagged "item" cs) := by
  intro runs
  induction runs with
  | nil => intro cs; rfl
  | cons p rest ih =>
    intro cs
    simp only [List.foldl_cons, List.map_cons]
    rw [ih, chanStep_items]

/-- Folding pyTrimList-append over a list, starting from an
accumulator within capacity, keeps exactly the most recent n elements
in order (capacity at least 1). -/
theorem pyTrimList_foldl {α : Type} (n : Nat) (hn : 1 ≤ n) :
    ∀ (l acc : List α), acc.length ≤ n →
      l.foldl (fun acc x => pyTrimList n (acc ++ [x])) acc =
        (acc ++ l).drop ((acc ++ l).length - n) := by
  intro l
  induction l with
  | nil =>
    intro acc hacc
    have h0 : (acc ++ []).length - n = 0 := by simp; omega
    rw [h0, List.drop_zero, List.append_nil]
    rfl
  | cons x xs ih =>
    intro acc hacc
    simp only [List.foldl_cons]
    by_cases hc : acc.length + 1 ≤ n
    · have e1 : pyTrimList n (acc ++ [x]) = acc ++ [x] := by
        unfold pyTrimList
        rw [if_neg (by simp; omega)]
      rw [e1, ih (acc ++ [x]) (by simp; omega)]
      have e2 : (acc ++ [x]) ++ xs = acc ++ x :: xs := by simp
      rw [e2]
    · have hlen : acc.length = n := by omega
      have e1 : pyTrimList n (acc ++ [x]) = (acc ++ [x]).drop 1 := by
        unfold pyTrimList
        rw [if_pos (by simp; omega), if_neg (by omega)]
        congr 1
        simp only [List.length_append, List.length_singleton]
        omega
      rw [e1, ih _ (by simp [List.length_drop]; omega)]
      have hxlen : 1 ≤ (acc ++ [x]).length := by
        simp only [List.length_append, List.length_singleton]
        omega
      have e2 : ((acc ++ [x]) ++ xs).drop 1 = (acc ++ [x]).drop 1 ++ xs :=
        List.drop_append_of_le_length hxlen
      rw [← e2, List.drop_drop]
      have e3 : (acc ++ [x]) ++ xs = acc ++ x :: xs := by simp
      rw [e3]
      congr 1
      simp only [List.length_drop, List.length_append, List.length_cons,
        List.length_singleton]
      omega

/-! ## C3 -/

/-- C3, amended: for a capacity of at least 3 (so that the three newest
survive), appending N + 3 items one at a time to the freshly initialized
feed leaves exactly the N most recent items, in original relative
order — the 3 oldest evicted, the 3 newest present — and the trim is a
no-op whenever the item count is at most the capacity.  For capacities
below 3 the claim fails: with capacity 1, only the newest of the last
three items remains (and with capacity 0 nothing is ever evicted at
all, because the Python slice items[:-0] is empty). -/
theorem claim3_capacity_eviction (N : Nat) (baseUrl t0 : String)
    (runs : List (String × RssItemArgs))
    (h3 : 3 ≤ N) (hlen : runs.length = N + 3) :
    (appendRun N (ensureFeedDoc baseUrl t0) runs).map itemLinks =
      Except.ok ((runs.map (fun p => p.2.post_url)).drop 3) ∧
    ((runs.map (fun p => p.2.post_url)).drop 3).length = N ∧
    (∀ u ∈ (runs.map (fun p => p.2.post_url)).drop N,
      u ∈ (runs.map (fun p => p.2.post_url)).drop 3) ∧
    (∀ (M : Nat) (cs : List Element), (childrenTagged "item" cs).length ≤ M →
      trimChannelChildren M cs = cs) := by
  refine ⟨?_, ?_, ?_, ?_⟩
  · have hshape : ensureFeedDoc baseUrl t0 = rssDoc
        [Element.elem "title" [] (some "Your Automated Stories") [],
         Element.elem "link" [] (some (baseUrl ++ "/")) [],
         Element.elem "description" [] (some "Auto-generated stories") [],
         Element.elem "lastBuildDate" [] (some t0) []] := rfl
    rw [hshape, appendRun_rssDoc]
    show Except.ok (itemLinks _) = _
    congr 1
    show (childrenTagged "item" _).map _ = _
    simp only [Element.children]
    rw [foldl_chanStep_items]
    have hinit : childrenTagged "item"
        [Element.elem "title" [] (some "Your Automated Stories") [],
         Element.elem "link" [] (some (baseUrl ++ "/")) [],
         Element.elem "description" [] (some "Auto-generated stories") [],
         Element.elem "lastBuildDate" [] (some t0) []] = [] := rfl
    rw [hinit, pyTrimList_foldl N (by omega) _ [] (by simp)]
    rw [List.nil_append]
    have hxlen : (runs.map (fun p => rssItemElem p.2 p.1)).length - N = 3 := by
      simp [hlen]
    rw [hxlen, List.map_drop]
    congr 1
    rw [List.map_map]
    exact List.map_congr_left (fun p _ => rfl)
  · simp [hlen]
  · intro u hu
    have he : (runs.map (fun p => p.2.post_url)).drop N =
        ((runs.map (fun p => p.2.post_url)).drop 3).drop (N - 3) := by
      rw [List.drop_drop]
      congr 1
      omega
    rw [he] at hu
    exact List.mem_of_mem_drop hu
  · intro M cs h
    unfold trimChannelChildren
    rw [if_neg (by omega)]

/-- Witness for C3 at capacity 3 with six appended items: the three
oldest are evicted and the three newest remain in order. -/
theorem claim3_witness :
    (appendRun 3 (ensureFeedDoc "b" "t0")
      [("t1", ⟨"T1", "u1", "s", "i", "m"⟩), ("t2", ⟨"T2", "u2", "s", "i", "m"⟩),
       ("t3", ⟨"T3", "u3", "s", "i", "m"⟩), ("t4", ⟨"T4", "u4", "s", "i", "m"⟩),
       ("t5", ⟨"T5", "u5", "s", "i", "m"⟩), ("t6", ⟨"T6", "u6", "s", "i", "m"⟩)]).map
      itemLinks = Except.ok ["u4", "u5", "u6"] := by
  have h := claim3_capacity_eviction 3 "b" "t0"
    [("t1", ⟨"T1", "u1", "s", "i", "m"⟩), ("t2", ⟨"T2", "u2", "s", "i", "m"⟩),
     ("t3", ⟨"T3", "u3", "s", "i", "m"⟩), ("t4", ⟨"T4", "u4", "s", "i", "m"⟩),
     ("t5", ⟨"T5", "u5", "s", "i", "m"⟩), ("t6", ⟨"T6", "u6", "s", "i", "m"⟩)]
    (by omega) (by decide)
  exact h.1.trans (by rfl)

/-- C3 counterexample: with capacity N = 1 and N + 3 = 4 appended items,
the stored feed holds only the single newest item, so the three newest
are not all present — "u2" (one of the three newest) has been evicted.
The claim as stated, quantified over every capacity N, is therefore
false. -/
theorem claim3_counterexample :
    (appendRun 1 (ensureFeedDoc "b" "t0")
      [("t1", ⟨"T1", "u1", "s", "i", "m"⟩), ("t2", ⟨"T2", "u2", "s", "i", "m"⟩),
       ("t3", ⟨"T3", "u3", "s", "i", "m"⟩), ("t4", ⟨"T4", "u4", "s", "i", "m"⟩)]).map
      itemLinks = Except.ok ["u4"] ∧ ("u2" : String) ∉ (["u4"] : List String) := by
  exact ⟨by rfl, by decide⟩

/-! ## C8 -/

/-- make_posts.py append_rss_item on the canonical shape succeeds and
rewrites the channel children through its chanStep. -/
theorem makePosts_append_rssDoc (now : String) (a : MakePosts.ItemArgs)
    (cs : List Element) :
    MakePosts.append_rss_item now a (rssDoc cs) =
      Except.ok (rssDoc (MakePosts.chanStep now a cs)) := by
  rfl

/-- make_posts.py appends exactly one item element and performs no trim. -/
theorem makePosts_chanStep_items (now : String) (a : MakePosts.ItemArgs)
    (cs : List Element) :
    childrenTagged "item" (MakePosts.chanStep now a cs) =
      childrenTagged "item" cs ++ [MakePosts.itemElem a now] := by
  unfold MakePosts.chanStep
  have hitem : childrenTagged "item" [MakePosts.itemElem a now] =
      [MakePosts.itemElem a now] := rfl
  have hlbd : childrenTagged "item" [Element.elem "lastBuildDate" [] (some now) []] =
      [] := rfl
  cases hf : cs.find? (fun c => c.tag == "lastBuildDate") with
  | some e =>
    simp only
    rw [childrenTagged_append, childrenTagged_setFirstText _ _ _ _ (by decide), hitem]
  | none =>
    simp only
    rw [childrenTagged_append, childrenTagged_append, hitem, hlbd, List.append_nil]

/-- C8, amended: the append_rss_item of src/scripts/make_post.py appends
exactly one new item — the channel item sequence becomes the old one
plus the new item, capacity-trimmed — whose link and guid both carry the
post URL and whose enclosure carries the image URL and MIME type; the
src/make_posts.py variant likewise appends exactly one item with
link = guid = post URL, but builds it without any enclosure element, so
a run publishing through that variant produces feed items carrying no
enclosure. -/
theorem claim8_item_shape (maxPosts : Nat) (now : String) (a : RssItemArgs)
    (pa : MakePosts.ItemArgs) (cs : List Element) :
    (append_rss_item maxPosts now a (rssDoc cs)).map channelItems =
      Except.ok (pyTrimList maxPosts (channelItems (rssDoc cs) ++ [rssItemElem a now])) ∧
    ((findChild (rssItemElem a now) "link").bind Element.text) = some a.post_url ∧
    ((findChild (rssItemElem a now) "guid").bind Element.text) = some a.post_url ∧
    (findChild (rssItemElem a now) "enclosure").map Element.attrs =
      some [("url", a.img_abs_url), ("type", a.img_mime)] ∧
    (MakePosts.append_rss_item now pa (rssDoc cs)).map channelItems =
      Except.ok (channelItems (rssDoc cs) ++ [MakePosts.itemElem pa now]) ∧
    ((findChild (MakePosts.itemElem pa now) "link").bind Element.text) = some pa.post_url ∧
    ((findChild (MakePosts.itemElem pa now) "guid").bind Element.text) = some pa.post_url ∧
    findChild (MakePosts.itemElem pa now) "enclosure" = none := by
  refine ⟨?_, rfl, rfl, rfl, ?_, rfl, rfl, rfl⟩
  · rw [append_rss_item_rssDoc]
    show Except.ok (channelItems (rssDoc (chanStep maxPosts now a cs))) = _
    congr 1
    show childrenTagged "item" (chanStep maxPosts now a cs) = _
    rw [chanStep_items]
    rfl
  · rw [makePosts_append_rssDoc]
    show Except.ok (channelItems (rssDoc (MakePosts.chanStep now pa cs))) = _
    congr 1
    show childrenTagged "item" (MakePosts.chanStep now pa cs) = _
    rw [makePosts_chanStep_items]
    rfl

/-- C8 counterexample: publishing through src/make_posts.py appends its
one item with children title, link, guid, pubDate and description only —
no enclosure element — refuting the claim that every successful
publishing run appends an item whose enclosure carries the image URL and
MIME type. -/
theorem claim8_counterexample :
    (MakePosts.append_rss_item "t1" ⟨"T", "u", "s", "i"⟩ (ensureFeedDoc "b" "t0")).map
      (fun d => (channelItems d).map (fun it => it.children.map Element.tag)) =
      Except.ok [["title", "link", "guid", "pubDate", "description"]] ∧
    ("enclosure" : String) ∉ (["title", "link", "guid", "pubDate", "description"] : List String) := by
  exact ⟨by rfl, by decide⟩

/-! ## C10 -/

/-- make_postold.py append_rss_item on the canonical shape succeeds and
rewrites the channel children through its chanStep. -/
theorem makePostOld_append_rssDoc (now : String) (a : MakePostOld.ItemArgs)
    (cs : List Element) :
    MakePostOld.append_rss_item now a (rssDoc cs) =
      Except.ok (rssDoc (MakePostOld.chanStep now a cs)) := by
  rfl

/-- A run of make_postold.py append_rss_item calls on the canonical
shape folds its chanStep over the channel children. -/
theorem makePostOld_appendRun_rssDoc :
    ∀ (runs : List (String × MakePostOld.ItemArgs)) (cs : List Element),
      MakePostOld.appendRun (rssDoc cs) runs =
        Except.ok (rssDoc (runs.foldl (fun cs p => MakePostOld.chanStep p.1 p.2 cs) cs)) := by
  intro runs
  induction runs with
  | nil => intro cs; rfl
  | cons p rest ih =>
    intro cs
    show MakePostOld.appendRun (rssDoc cs) (p :: rest) = _
    unfold MakePostOld.appendRun
    rw [makePostOld_append_rssDoc]
    exact ih (MakePostOld.chanStep p.1 p.2 cs)

/-- When every lastBuildDate child is childless — hence falsy for
ElementTree — one make_postold.py call always appends a brand-new
lastBuildDate carrying the call time, leaving the earlier ones with
their old texts, and preserves the childlessness invariant. -/
theorem makePostOld_chanStep_lbd (now : String) (a : MakePostOld.ItemArgs)
    (cs : List Element) (hinv : LbdChildless cs) :
    lbdTextsOf (MakePostOld.chanStep now a cs) = lbdTextsOf cs ++ [now] ∧
    LbdChildless (MakePostOld.chanStep now a cs) := by
  have hlbdNew : childrenTagged "lastBuildDate" [Element.elem "lastBuildDate" [] (some now) []] =
      [Element.elem "lastBuildDate" [] (some now) []] := rfl
  have hitem : childrenTagged "lastBuildDate" [MakePostOld.itemElem a now] = [] := rfl
  have hbody : MakePostOld.chanStep now a cs =
      (cs ++ [Element.elem "lastBuildDate" [] (some now) []]) ++ [MakePostOld.itemElem a now] := by
    unfold MakePostOld.chanStep
    cases hf : cs.find? (fun c => c.tag == "lastBuildDate") with
    | some e =>
      have he : e ∈ cs := List.mem_of_find?_eq_some hf
      have htagb := List.find?_some hf
      have htag : e.tag = "lastBuildDate" := beq_iff_eq.mp htagb
      have hch : e.children = [] := hinv e he htag
      simp only
      rw [if_neg (by rw [hch]; simp)]
    | none => simp only
  constructor
  · rw [hbody]
    unfold lbdTextsOf
    rw [childrenTagged_append, childrenTagged_append, hlbdNew, hitem, List.append_nil,
      List.map_append]
    rfl
  · rw [hbody]
    intro c hc htag
    rcases List.mem_append.mp hc with hc1 | hc2
    · rcases List.mem_append.mp hc1 with hc3 | hc4
      · exact hinv c hc3 htag
      · rw [List.mem_singleton.mp hc4]
        rfl
    · have hx : (MakePostOld.itemElem a now).tag = "item" := rfl
      rw [List.mem_singleton.mp hc2, hx] at htag
      exact absurd htag (by decide)

/-- Folding make_postold.py appends accumulates one lastBuildDate per
call, each keeping the time of its own call. -/
theorem makePostOld_fold_lbd :
    ∀ (runs : List (String × MakePostOld.ItemArgs)) (cs : List Element),
      LbdChildless cs →
      lbdTextsOf (runs.foldl (fun cs p => MakePostOld.chanStep p.1 p.2 cs) cs) =
        lbdTextsOf cs ++ runs.map Prod.fst := by
  intro runs
  induction runs with
  | nil => intro cs _; simp
  | cons p rest ih =>
    intro cs hinv
    simp only [List.foldl_cons, List.map_cons]
    obtain ⟨e1, e2⟩ := makePostOld_chanStep_lbd p.1 p.2 cs hinv
    rw [ih _ e2, e1]
    simp

/-- C10: after k make_postold.py appends against a feed initialized by
ensure_feed, the channel holds k + 1 lastBuildDate elements: the
`chan.find("lastBuildDate") or ET.SubElement(...)` idiom never reuses
the existing childless (hence falsy) element, so every call appends a
new one carrying that call's time, and only the newest carries the
latest time — the texts are exactly the initial time followed by the
successive call times. -/
theorem claim10_lastBuildDate_accumulates (baseUrl t0 : String)
    (runs : List (String × MakePostOld.ItemArgs)) :
    (MakePostOld.appendRun (ensureFeedDoc baseUrl t0) runs).map lbdTexts =
      Except.ok (t0 :: runs.map Prod.fst) ∧
    (t0 :: runs.map Prod.fst).length = runs.length + 1 := by
  constructor
  · have hshape : ensureFeedDoc baseUrl t0 = rssDoc
        [Element.elem "title" [] (some "Your Automated Stories") [],
         Element.elem "link" [] (some (baseUrl ++ "/")) [],
         Element.elem "description" [] (some "Auto-generated stories") [],
         Element.elem "lastBuildDate" [] (some t0) []] := rfl
    rw [hshape, makePostOld_appendRun_rssDoc]
    show Except.ok (lbdTexts _) = _
    congr 1
    show lbdTextsOf _ = _
    simp only [Element.children]
    have hinv : LbdChildless
        [Element.elem "title" [] (some "Your Automated Stories") [],
         Element.elem "link" [] (some (baseUrl ++ "/")) [],
         Element.elem "description" [] (some "Auto-generated stories") [],
         Element.elem "lastBuildDate" [] (some t0) []] := by
      intro c hc _
      simp only [List.mem_cons, List.not_mem_nil, or_false] at hc
      rcases hc with rfl | rfl | rfl | rfl <;> rfl
    rw [makePostOld_fold_lbd _ _ hinv]
    rfl
  · simp

end StoryFeed
